import Mathlib

/-!
Verification of the keyword-attribute extraction engine of go-mtree
(`keywordfuncs.go`): a shallow embedding of the keyword extractor
functions and their registry, with theorems checking the
natural-language specification against the code.

Machine integers are modelled as `Nat` (for the `os.FileMode` bit
field, whose operations never overflow 32 bits here) and `Int` (for
`int64` sizes and nanosecond timestamps).  A Go `(string, error)`
return is `Except String String`; a Go runtime panic (integer division
or remainder with zero divisor) is modelled by wrapping results in
`Option`, with `none` standing for the panic.
-/

namespace Mtree

/-! ## Go `os.FileMode` bit constants (from the Go standard library) -/

def ModeDir : Nat := 2 ^ 31

def ModeSymlink : Nat := 2 ^ 27

def ModeDevice : Nat := 2 ^ 26

def ModeNamedPipe : Nat := 2 ^ 25

def ModeSocket : Nat := 2 ^ 24

def ModeSetuid : Nat := 2 ^ 23

def ModeSetgid : Nat := 2 ^ 22

def ModeCharDevice : Nat := 2 ^ 21

def ModeSticky : Nat := 2 ^ 20

/-- `os.ModeType`: the mask of type bits, as in the Go standard library
of the repository's vintage (`ModeDir | ModeSymlink | ModeNamedPipe |
ModeSocket | ModeDevice`). -/
def ModeType : Nat := ModeDir ||| ModeSymlink ||| ModeNamedPipe ||| ModeSocket ||| ModeDevice

/-- `os.ModePerm = 0777`: the permission bits. -/
def ModePerm : Nat := 0o777

/-- `FileMode.IsDir`: `m & ModeDir != 0`. -/
def isDir (m : Nat) : Bool := m &&& ModeDir != 0

/-- `FileMode.IsRegular`: `m & ModeType == 0`. -/
def isRegular (m : Nat) : Bool := m &&& ModeType == 0

/-- `FileMode.Perm`: `m & ModePerm`. -/
def perm (m : Nat) : Nat := m &&& ModePerm

/-! ## Entry metadata -/

/-- `tar.TypeSymlink = '2'` (byte 0x32). -/
def TypeSymlink : Nat := 0x32

/-- The fields of `tar.Header` that the extractors consult.  `size` is
carried along to express that the size extractor ignores it for
symlink entries. -/
structure TarHeader where
  typeflag : Nat
  linkname : String
  size : Int
  deriving Repr, DecidableEq

/-- The part of `os.FileInfo` the extractors consult: `Mode()` (the
`os.FileMode` bit field), `Size()` (`int64`), `ModTime().UnixNano()`
(`int64`), and `Sys()` — `some hdr` when the type assertion
`info.Sys().(*tar.Header)` succeeds (archive-origin entry), `none`
otherwise (live filesystem entry). -/
structure FileInfo where
  mode : Nat
  size : Int
  modTimeUnixNano : Int
  sys : Option TarHeader
  deriving Repr, DecidableEq

/-- The content stream handed to an extractor: reading it either
delivers the file's bytes or fails with an I/O error. -/
abbrev Reader := Except String (List Nat)

/-- `KeywordFunc`: `func(path string, info os.FileInfo, r io.Reader)
(string, error)`.  The outer `Option` models Go runtime panics
(`none`); `Except.error` models a returned non-nil `error`. -/
abbrev KeywordFunc := String → FileInfo → Reader → Option (Except String String)

/-! ## Formatting helpers (Go `fmt` verbs used by the extractors) -/

/-- Lowercase hex digit, for Go's `%x`: code point `'0' + n` for
`n < 10`, `'a' + (n - 10)` for `10 ≤ n < 16`. -/
def hexDigit (n : Nat) : Char :=
  if n < 10 then Char.ofNat (48 + n) else Char.ofNat (87 + n)

/-- One byte as two lowercase hex digits. -/
def hexByte (b : Nat) : String :=
  String.mk [hexDigit (b / 16 % 16), hexDigit (b % 16)]

/-- Go `fmt.Sprintf("%x", bs)` for a byte slice: each byte as two
lowercase hex digits. -/
def hexOfBytes (bs : List Nat) : String :=
  String.join (bs.map hexByte)

/-- Octal digits of a natural number. -/
def octalStr (n : Nat) : String := String.mk (Nat.toDigits 8 n)

/-- Go `fmt.Sprintf("%#o", n)` for a non-negative value: a leading `0`
before the octal digits, except that the value zero prints as `0`. -/
def goSharpOctal (n : Nat) : String :=
  if n = 0 then "0" else "0" ++ octalStr n

/-- Decimal digits zero-padded on the left to at least 9 digits. -/
def pad9 (n : Nat) : String :=
  let s := toString n
  if s.length < 9 then String.mk (List.replicate (9 - s.length) '0') ++ s else s

/-- Go `fmt.Sprintf("%9.9d", i)` for an `int64`: at least 9 digits,
zero padded, sign in front (the precision of 9 makes the width of 9
never pad with spaces). -/
def goPad9 (i : Int) : String :=
  if i < 0 then "-" ++ pad9 i.natAbs else pad9 i.toNat

/-- `Time.Unix()`: whole seconds since the epoch, i.e. the nanosecond
count floor-divided by 10^9. -/
def goUnixSeconds (nanos : Int) : Int := nanos.fdiv 1000000000

/-! ## The extractors of `keywordfuncs.go` -/

/-- `modeKeywordFunc`: permissions plus setuid/setgid/sticky bits,
formatted `mode=%#o`. -/
def modeKeywordFunc : KeywordFunc := fun _ info _ =>
  let p0 := perm info.mode
  let p1 := if ModeSetuid &&& info.mode > 0 then p0 ||| (1 <<< 11) else p0
  let p2 := if ModeSetgid &&& info.mode > 0 then p1 ||| (1 <<< 10) else p1
  let p3 := if ModeSticky &&& info.mode > 0 then p2 ||| (1 <<< 9) else p2
  some (Except.ok ("mode=" ++ goSharpOctal p3))

/-- `sizeKeywordFunc`: for an archive symlink entry, the byte length of
the recorded link target; otherwise `info.Size()`. -/
def sizeKeywordFunc : KeywordFunc := fun _ info _ =>
  match info.sys with
  | some sys =>
    if sys.typeflag = TypeSymlink then
      some (Except.ok ("size=" ++ toString sys.linkname.utf8ByteSize))
    else
      some (Except.ok ("size=" ++ toString info.size))
  | none => some (Except.ok ("size=" ++ toString info.size))

/-- `cksumKeywordFunc`: regular files only; delegates to the external
`cksum` function (passed in as `cksumFn`, returning the checksum value
and the byte count). -/
def cksumKeywordFunc (cksumFn : List Nat → Nat × Nat) : KeywordFunc := fun _ info r =>
  if !(isRegular info.mode) then some (Except.ok "")
  else
    match r with
    | Except.error e => some (Except.error e)
    | Except.ok bs => some (Except.ok ("cksum=" ++ toString (cksumFn bs).fst))

/-- `hasherKeywordFunc name newHash`: regular files only; hashes the
whole content stream and formats `name=<lowercase hex>`.  A hash
constructor plus `io.Copy` plus `Sum(nil)` is modelled as one function
from the full byte stream to the digest bytes. -/
def hasherKeywordFunc (name : String) (newHash : List Nat → List Nat) : KeywordFunc :=
  fun _ info r =>
    if !(isRegular info.mode) then some (Except.ok "")
    else
      match r with
      | Except.error e => some (Except.error e)
      | Except.ok bs => some (Except.ok (name ++ "=" ++ hexOfBytes (newHash bs)))

/-- `tartimeKeywordFunc`: `tar_time=%d.000000000` from `ModTime().Unix()`. -/
def tartimeKeywordFunc : KeywordFunc := fun _ info _ =>
  some (Except.ok ("tar_time=" ++ toString (goUnixSeconds info.modTimeUnixNano) ++ ".000000000"))

/-- `timeKeywordFunc`: `time=0.000000000` when the raw nanosecond count
is zero; otherwise Go computes
`fmt.Sprintf("time=%d.%9.9d", t/1e9, t%(t/1e9))` — note the divisor of
the remainder is `t/1e9` itself, and a zero divisor is a Go runtime
panic (modelled as `none`).  Go `int64` division truncates toward
zero (`Int.tdiv`/`Int.tmod`). -/
def timeKeywordFunc : KeywordFunc := fun _ info _ =>
  let t := info.modTimeUnixNano
  if t = 0 then some (Except.ok "time=0.000000000")
  else
    let secs := t.tdiv 1000000000
    if secs = 0 then none
    else some (Except.ok ("time=" ++ toString secs ++ "." ++ goPad9 (t.tmod secs)))

/-- `linkKeywordFunc`: archive entries use the recorded `Linkname`
(empty token when it is empty); live entries whose mode has the
symlink bit resolve the target through `os.Readlink` (passed in as
`readlink`), propagating its error; all other entries yield the empty
token. -/
def linkKeywordFunc (readlink : String → Except String String) : KeywordFunc :=
  fun path info _ =>
    match info.sys with
    | some sys =>
      if sys.linkname ≠ "" then some (Except.ok ("link=" ++ sys.linkname))
      else some (Except.ok "")
    | none =>
      if info.mode &&& ModeSymlink != 0 then
        match readlink path with
        | Except.error e => some (Except.error e)
        | Except.ok str => some (Except.ok ("link=" ++ str))
      else some (Except.ok "")

/-- `typeKeywordFunc`: classifies in the order directory, regular,
socket, symlink, named pipe, device (char vs. block). -/
def typeKeywordFunc : KeywordFunc := fun _ info _ =>
  if isDir info.mode then some (Except.ok "type=dir")
  else if isRegular info.mode then some (Except.ok "type=file")
  else if info.mode &&& ModeSocket != 0 then some (Except.ok "type=socket")
  else if info.mode &&& ModeSymlink != 0 then some (Except.ok "type=link")
  else if info.mode &&& ModeNamedPipe != 0 then some (Except.ok "type=fifo")
  else if info.mode &&& ModeDevice != 0 then
    if info.mode &&& ModeCharDevice != 0 then some (Except.ok "type=char")
    else some (Except.ok "type=device")
  else some (Except.ok "")

/-! ## External collaborators

The hash constructors (`crypto/*`, `go.crypto/ripemd160`), the `cksum`
function, `os.Readlink`, and the uid/gid/nlink/uname/xattr keyword
functions are defined outside `keywordfuncs.go` (standard library,
`cksum.go`, platform-specific files).  Per the spec's external
interface contracts they are opaque capabilities; the development is
parameterized over them. -/

structure Externals where
  md5New : List Nat → List Nat
  ripemd160New : List Nat → List Nat
  sha1New : List Nat → List Nat
  sha256New : List Nat → List Nat
  sha384New : List Nat → List Nat
  sha512New : List Nat → List Nat
  cksumFn : List Nat → Nat × Nat
  readlink : String → Except String String
  uidKw : KeywordFunc
  gidKw : KeywordFunc
  nlinkKw : KeywordFunc
  unameKw : KeywordFunc
  xattrKw : KeywordFunc

/-- The `KeywordFuncs` map of `keywordfuncs.go`, as an association
list (Go map lookup is exact string match; all keys are distinct). -/
def KeywordFuncs (E : Externals) : List (String × KeywordFunc) :=
  [("size", sizeKeywordFunc),
   ("type", typeKeywordFunc),
   ("time", timeKeywordFunc),
   ("link", linkKeywordFunc E.readlink),
   ("uid", E.uidKw),
   ("gid", E.gidKw),
   ("nlink", E.nlinkKw),
   ("uname", E.unameKw),
   ("mode", modeKeywordFunc),
   ("cksum", cksumKeywordFunc E.cksumFn),
   ("md5", hasherKeywordFunc "md5digest" E.md5New),
   ("md5digest", hasherKeywordFunc "md5digest" E.md5New),
   ("rmd160", hasherKeywordFunc "ripemd160digest" E.ripemd160New),
   ("rmd160digest", hasherKeywordFunc "ripemd160digest" E.ripemd160New),
   ("ripemd160digest", hasherKeywordFunc "ripemd160digest" E.ripemd160New),
   ("sha1", hasherKeywordFunc "sha1digest" E.sha1New),
   ("sha1digest", hasherKeywordFunc "sha1digest" E.sha1New),
   ("sha256", hasherKeywordFunc "sha256digest" E.sha256New),
   ("sha256digest", hasherKeywordFunc "sha256digest" E.sha256New),
   ("sha384", hasherKeywordFunc "sha384digest" E.sha384New),
   ("sha384digest", hasherKeywordFunc "sha384digest" E.sha384New),
   ("sha512", hasherKeywordFunc "sha512digest" E.sha512New),
   ("sha512digest", hasherKeywordFunc "sha512digest" E.sha512New),
   ("tar_time", tartimeKeywordFunc),
   ("xattr", E.xattrKw),
   ("xattrs", E.xattrKw)]

/-- Registry lookup: `KeywordFuncs[name]`. -/
def resolveKeyword (E : Externals) (name : String) : Option KeywordFunc :=
  (KeywordFuncs E).lookup name

/-! ## Spec-side definitions -/

/-- The registry names of the content-digest keywords together with
`cksum`: the extractors that consume the content stream. -/
def digestAndCksumKeywords : List String :=
  ["md5", "md5digest", "rmd160", "rmd160digest", "ripemd160digest",
   "sha1", "sha1digest", "sha256", "sha256digest", "sha384", "sha384digest",
   "sha512", "sha512digest", "cksum"]

/-- The synonym pairs of digest keywords: each pair must resolve to
the same extractor. -/
def synonymPairs : List (String × String) :=
  [("md5", "md5digest"), ("rmd160", "rmd160digest"), ("rmd160", "ripemd160digest"),
   ("rmd160digest", "ripemd160digest"), ("sha1", "sha1digest"), ("sha256", "sha256digest"),
   ("sha384", "sha384digest"), ("sha512", "sha512digest")]

/-- Each digest keyword paired with the canonical `<algorithm>digest`
name its token must carry. -/
def canonicalDigestPairs : List (String × String) :=
  [("md5", "md5digest"), ("md5digest", "md5digest"),
   ("rmd160", "ripemd160digest"), ("rmd160digest", "ripemd160digest"),
   ("ripemd160digest", "ripemd160digest"),
   ("sha1", "sha1digest"), ("sha1digest", "sha1digest"),
   ("sha256", "sha256digest"), ("sha256digest", "sha256digest"),
   ("sha384", "sha384digest"), ("sha384digest", "sha384digest"),
   ("sha512", "sha512digest"), ("sha512digest", "sha512digest")]

/-- Spec-side mode word (from the spec's words): the low 9 permission
bits, with `0o4000`, `0o2000`, `0o1000` OR'd in when the setuid,
setgid, sticky flags (bits 23, 22, 20 of the Go mode word) are set,
each detected independently of the base permission bits. -/
def specModeBits (m : Nat) : Nat :=
  ((m % 512 ||| (if m.testBit 23 then 0o4000 else 0)) |||
    (if m.testBit 22 then 0o2000 else 0)) |||
    (if m.testBit 20 then 0o1000 else 0)

/-- Count of primary type-flag bits set in a mode word (dir, symlink,
device, named pipe, socket).  A well-formed mode sets at most one. -/
def typeFlagCount (m : Nat) : Nat :=
  (if m &&& ModeDir ≠ 0 then 1 else 0) + (if m &&& ModeSymlink ≠ 0 then 1 else 0) +
    (if m &&& ModeDevice ≠ 0 then 1 else 0) + (if m &&& ModeNamedPipe ≠ 0 then 1 else 0) +
    (if m &&& ModeSocket ≠ 0 then 1 else 0)

/-- A concrete instantiation of the external collaborators, used to
exercise the theorems on concrete inputs. -/
def trivialExternals : Externals :=
  ⟨fun _ => [], fun _ => [], fun _ => [], fun _ => [], fun _ => [], fun _ => [],
   fun _ => (0, 0), fun _ => Except.ok "",
   fun _ _ _ => some (Except.ok ""), fun _ _ _ => some (Except.ok ""),
   fun _ _ _ => some (Except.ok ""), fun _ _ _ => some (Except.ok ""),
   fun _ _ _ => some (Except.ok "")⟩

/-! ## Helper lemmas on the mode bit field -/

theorem lor_eq_zero_iff {x y : Nat} : x ||| y = 0 ↔ x = 0 ∧ y = 0 := by
  constructor
  · intro h
    have hb : ∀ i, (x ||| y).testBit i = false := by
      intro i; rw [h]; exact Nat.zero_testBit i
    constructor <;> apply Nat.eq_of_testBit_eq <;> intro i <;>
      have hi := hb i <;> rw [Nat.testBit_or] at hi <;>
      simp only [Bool.or_eq_false_iff] at hi <;> simp [hi.1, hi.2]
  · rintro ⟨rfl, rfl⟩; rfl

theorem and_modeType_eq_zero_iff {m : Nat} :
    m &&& ModeType = 0 ↔ (m &&& ModeDir = 0 ∧ m &&& ModeSymlink = 0 ∧
      m &&& ModeNamedPipe = 0 ∧ m &&& ModeSocket = 0 ∧ m &&& ModeDevice = 0) := by
  simp only [ModeType, Nat.and_or_distrib_left, lor_eq_zero_iff]
  tauto

theorem isRegular_eq_true_iff {m : Nat} :
    isRegular m = true ↔ (m &&& ModeDir = 0 ∧ m &&& ModeSymlink = 0 ∧
      m &&& ModeNamedPipe = 0 ∧ m &&& ModeSocket = 0 ∧ m &&& ModeDevice = 0) := by
  rw [isRegular, beq_iff_eq, and_modeType_eq_zero_iff]

theorem two_pow_and_pos {i m : Nat} : 2 ^ i &&& m > 0 ↔ m.testBit i = true := by
  rw [Nat.and_comm, Nat.and_two_pow]
  cases h : m.testBit i <;> simp [Nat.two_pow_pos]

theorem perm_eq_mod (m : Nat) : perm m = m % 512 := by
  have h := Nat.and_pow_two_sub_one_eq_mod m 9
  norm_num at h
  simpa [perm, ModePerm] using h

/-! ## Claim theorems -/

/-- Claim C1: for every entry whose type is not a regular file, every
digest keyword extractor (md5, rmd160/ripemd160, sha1, sha256, sha384,
sha512 and all their synonyms) and the cksum extractor return the
empty token and no error, regardless of the content stream supplied
(even an erroring one). -/
theorem nonRegular_digest_cksum_empty (E : Externals) (k : String)
    (hk : k ∈ digestAndCksumKeywords) (path : String) (info : FileInfo)
    (r : Reader) (hreg : isRegular info.mode = false) :
    ∃ f, resolveKeyword E k = some f ∧ f path info r = some (Except.ok "") := by
  fin_cases hk <;>
    exact ⟨_, rfl, by simp [hasherKeywordFunc, cksumKeywordFunc, hreg]⟩

/-- Witness for C1: the `md5` extractor on a directory entry with a
non-empty content stream yields the empty token. -/
theorem nonRegular_digest_cksum_empty_witness :
    ∃ f, resolveKeyword trivialExternals "md5" = some f ∧
      f "p" ⟨ModeDir ||| 0o755, 0, 0, none⟩ (Except.ok [1, 2]) = some (Except.ok "") :=
  nonRegular_digest_cksum_empty trivialExternals "md5" (by decide) "p"
    ⟨ModeDir ||| 0o755, 0, 0, none⟩ (Except.ok [1, 2]) (by decide)

/-- Claim C2 (code bug): the claim asserts the time extractor is total
and never divides or takes a remainder with a zero divisor.  The code
computes `t % (t / 1e9)`, whose divisor `t / 1e9` is zero for every
nonzero `t` with `|t| < 10^9` — a Go runtime panic (modelled as
`none`).  The zero-timestamp special case itself does hold. -/
theorem time_panics_on_small_nonzero_timestamp :
    timeKeywordFunc "p" ⟨0o644, 0, 1, none⟩ (Except.ok []) = none ∧
    timeKeywordFunc "p" ⟨0o644, 0, 0, none⟩ (Except.ok [])
      = some (Except.ok "time=0.000000000") :=
  ⟨rfl, rfl⟩

/-- Claim C3 (code bug): the claim asserts the emitted token agrees
with the fixed-divisor form `(nanos / 1e9, nanos % 1e9)`.  At
`t = 1500000000` the code emits `time=1.000000000` (its fraction is
`t % (t / 1e9) = 1500000000 % 1 = 0`), while the fixed-divisor form
renders `time=1.500000000`.  (The two agree only when
`|t| ≥ 10^18`.) -/
theorem time_disagrees_with_fixed_divisor_form :
    timeKeywordFunc "p" ⟨0o644, 0, 1500000000, none⟩ (Except.ok [])
      = some (Except.ok "time=1.000000000") ∧
    "time=" ++ toString ((1500000000 : Int).tdiv 1000000000) ++ "." ++
        goPad9 ((1500000000 : Int).tmod 1000000000) = "time=1.500000000" ∧
    ("time=1.000000000" : String) ≠ "time=1.500000000" :=
  ⟨rfl, rfl, by decide⟩

/-- Claim C4: a digest keyword and each of its synonyms resolve to the
same registry entry, hence extensionally (indeed intensionally) equal
extractors: byte-identical tokens and identical error outcomes on
every entry and content stream. -/
theorem synonym_extractors_equal (E : Externals) (p : String × String)
    (hp : p ∈ synonymPairs) :
    resolveKeyword E p.1 = resolveKeyword E p.2 ∧
    ∀ path info r, ∃ f g, resolveKeyword E p.1 = some f ∧
      resolveKeyword E p.2 = some g ∧ f path info r = g path info r := by
  fin_cases hp <;> exact ⟨rfl, fun _ _ _ => ⟨_, _, rfl, rfl, rfl⟩⟩

/-- Witness for C4: `sha1` and `sha1digest` resolve identically. -/
theorem synonym_extractors_equal_witness :
    resolveKeyword trivialExternals "sha1" = resolveKeyword trivialExternals "sha1digest" :=
  (synonym_extractors_equal trivialExternals ("sha1", "sha1digest") (by decide)).1

/-- Claim C5: the mode extractor formats the low 9 permission bits in
octal with a leading 0, after OR-ing in `0o4000` when setuid is set,
`0o2000` when setgid is set and `0o1000` when sticky is set, each flag
detected independently of the base permission bits; in particular
permission `0644` with setgid yields `mode=02644`. -/
theorem mode_folds_suid_sgid_sticky (path : String) (info : FileInfo) (r : Reader) :
    modeKeywordFunc path info r
      = some (Except.ok ("mode=" ++ goSharpOctal (specModeBits info.mode))) ∧
    modeKeywordFunc path ⟨0o644 ||| ModeSetgid, 0, 0, none⟩ r
      = some (Except.ok "mode=02644") := by
  constructor
  · simp only [modeKeywordFunc, specModeBits, ModeSetuid, ModeSetgid, ModeSticky,
      two_pow_and_pos, perm_eq_mod]
    by_cases h23 : info.mode.testBit 23 <;>
    by_cases h22 : info.mode.testBit 22 <;>
    by_cases h20 : info.mode.testBit 20 <;>
      simp [h23, h22, h20, Nat.shiftLeft_eq]
  · rfl

/-- Claim C6: an archive-origin entry whose recorded type flag is the
tar symlink flag reports `size=<byte length of the recorded link
target>` (ignoring every size field, as witnessed by the quantified
`size` fields and the concrete `9999` entries); every other entry
reports `size=<metadata size>`. -/
theorem size_uses_linkname_for_archive_symlink (path : String) (mode : Nat)
    (size modTime : Int) (hdr : TarHeader) (r : Reader) :
    (hdr.typeflag = TypeSymlink →
      sizeKeywordFunc path ⟨mode, size, modTime, some hdr⟩ r
        = some (Except.ok ("size=" ++ toString hdr.linkname.utf8ByteSize))) ∧
    (hdr.typeflag ≠ TypeSymlink →
      sizeKeywordFunc path ⟨mode, size, modTime, some hdr⟩ r
        = some (Except.ok ("size=" ++ toString size))) ∧
    (sizeKeywordFunc path ⟨mode, size, modTime, none⟩ r
      = some (Except.ok ("size=" ++ toString size))) ∧
    sizeKeywordFunc path ⟨mode, 9999, modTime, some ⟨TypeSymlink, "abc", 9999⟩⟩ r
      = some (Except.ok "size=3") := by
  refine ⟨fun h => ?_, fun h => ?_, rfl, rfl⟩ <;> simp [sizeKeywordFunc, h]

/-- Witness for C6: an archive symlink entry with target `"ab"` and
size field `99` reports `size=2`. -/
theorem size_uses_linkname_for_archive_symlink_witness :
    sizeKeywordFunc "p" ⟨0, 7, 0, some ⟨TypeSymlink, "ab", 99⟩⟩ (Except.ok [])
      = some (Except.ok "size=2") :=
  (size_uses_linkname_for_archive_symlink "p" 0 7 0 ⟨TypeSymlink, "ab", 99⟩
    (Except.ok [])).1 rfl

/-- Claim C7: for every well-formed entry (at most one primary type
flag set), the type extractor returns one of the seven tokens
`type=dir`, `type=file`, `type=socket`, `type=link`, `type=fifo`,
`type=char`, `type=device`, with no error (checking in the order
directory, regular, socket, symlink, fifo, device/char — which is the
order of the code's conditionals). -/
theorem type_classifies (path : String) (info : FileInfo) (r : Reader)
    (h : typeFlagCount info.mode ≤ 1) :
    ∃ t, typeKeywordFunc path info r = some (Except.ok t) ∧
      t ∈ ["type=dir", "type=file", "type=socket", "type=link", "type=fifo",
           "type=char", "type=device"] := by
  simp only [typeFlagCount] at h
  simp only [typeKeywordFunc, isDir, bne_iff_ne, ne_eq]
  by_cases h1 : info.mode &&& ModeDir = 0 <;>
  by_cases h2 : info.mode &&& ModeSymlink = 0 <;>
  by_cases h3 : info.mode &&& ModeDevice = 0 <;>
  by_cases h4 : info.mode &&& ModeNamedPipe = 0 <;>
  by_cases h5 : info.mode &&& ModeSocket = 0 <;>
  by_cases h6 : info.mode &&& ModeCharDevice = 0 <;>
    simp only [h1, h2, h3, h4, h5, h6, if_true, if_false] at h ⊢ <;>
    first
      | omega
      | (have hreg : isRegular info.mode = true := isRegular_eq_true_iff.mpr ⟨h1, h2, h4, h5, h3⟩
         simp [hreg])
      | (have hreg : isRegular info.mode = false := by
            rw [Bool.eq_false_iff, ne_eq, isRegular_eq_true_iff]
            tauto
         simp [hreg, h1, h2, h3, h4, h5, h6])

/-- Witness for C7: a directory entry classifies as `type=dir`. -/
theorem type_classifies_witness :
    ∃ t, typeKeywordFunc "p" ⟨ModeDir ||| 0o755, 0, 0, none⟩ (Except.ok [])
        = some (Except.ok t) ∧
      t ∈ ["type=dir", "type=file", "type=socket", "type=link", "type=fifo",
           "type=char", "type=device"] :=
  type_classifies "p" ⟨ModeDir ||| 0o755, 0, 0, none⟩ (Except.ok []) (by decide)

/-- Claim C8: an archive-origin entry with a non-empty recorded link
target yields `link=<target>` with no error, and the result does not
depend on the symlink-read capability (no filesystem read is
performed: any two `readlink` functions give the same result). -/
theorem link_archive_recorded_target (rl rl2 : String → Except String String)
    (path : String) (info : FileInfo) (r : Reader) (hdr : TarHeader)
    (hsys : info.sys = some hdr) (hln : hdr.linkname ≠ "") :
    linkKeywordFunc rl path info r = some (Except.ok ("link=" ++ hdr.linkname)) ∧
    linkKeywordFunc rl path info r = linkKeywordFunc rl2 path info r := by
  constructor <;> simp [linkKeywordFunc, hsys, hln]

/-- Witness for C8: an archive entry with recorded target
`"target.txt"` yields `link=target.txt` even when the readlink
capability would fail. -/
theorem link_archive_recorded_target_witness :
    linkKeywordFunc (fun _ => Except.error "io") "p"
        ⟨0o777, 0, 0, some ⟨TypeSymlink, "target.txt", 0⟩⟩ (Except.ok [])
      = some (Except.ok "link=target.txt") :=
  (link_archive_recorded_target (fun _ => Except.error "io") (fun _ => Except.ok "other")
    "p" ⟨0o777, 0, 0, some ⟨TypeSymlink, "target.txt", 0⟩⟩ (Except.ok [])
    ⟨TypeSymlink, "target.txt", 0⟩ rfl (by decide)).1

/-- Counterexample to Claim C9 as stated: an archive-origin entry with
an *empty* recorded link target and symlink mode does not carry a
non-empty archive-recorded link target, so the claim demands a
symlink-read resolving the target (`link=tgt` here, since the supplied
`readlink` succeeds with `"tgt"`); the code instead returns the empty
token without consulting `readlink`. -/
theorem link_empty_archive_target_counterexample :
    linkKeywordFunc (fun _ => Except.ok "tgt") "p"
        ⟨ModeSymlink ||| 0o777, 0, 0, some ⟨TypeSymlink, "", 0⟩⟩ (Except.ok [])
      = some (Except.ok "") ∧
    ("" : String) ≠ "link=" ++ "tgt" :=
  ⟨rfl, by decide⟩

/-- Claim C9 (amended): for every entry that carries *no*
archive-origin record at all and whose mode indicates a symlink, the
link extractor resolves the target via the symlink-read capability on
the entry's path: `link=<target>` on success, the propagated error
(not the empty token) on failure. -/
theorem link_live_symlink_readlink (rl : String → Except String String)
    (path : String) (info : FileInfo) (r : Reader)
    (hsys : info.sys = none) (hmode : info.mode &&& ModeSymlink ≠ 0) :
    (∀ target, rl path = Except.ok target →
      linkKeywordFunc rl path info r = some (Except.ok ("link=" ++ target))) ∧
    (∀ e, rl path = Except.error e →
      linkKeywordFunc rl path info r = some (Except.error e)) := by
  constructor <;> intro x hx <;> simp [linkKeywordFunc, hsys, hmode, hx]

/-- Witness for C9 (amended): a live symlink entry resolves through
readlink to `link=target.txt`. -/
theorem link_live_symlink_readlink_witness :
    linkKeywordFunc (fun _ => Except.ok "target.txt") "p"
        ⟨ModeSymlink, 0, 0, none⟩ (Except.ok [])
      = some (Except.ok "link=target.txt") :=
  (link_live_symlink_readlink (fun _ => Except.ok "target.txt") "p"
    ⟨ModeSymlink, 0, 0, none⟩ (Except.ok []) rfl (by decide)).1 "target.txt" rfl

/-- Claim C10: each digest keyword resolves to the hasher extractor
whose output name is the canonical `<algorithm>digest` label, so the
token emitted on a regular file is `<canonical>=<hex>` — never
labelled with the bare requested keyword. -/
theorem digest_tokens_use_canonical_name (E : Externals) (p : String × String)
    (hp : p ∈ canonicalDigestPairs) (path : String) (info : FileInfo) (bs : List Nat)
    (hreg : isRegular info.mode = true) :
    ∃ h, resolveKeyword E p.1 = some (hasherKeywordFunc p.2 h) ∧
      hasherKeywordFunc p.2 h path info (Except.ok bs)
        = some (Except.ok (p.2 ++ "=" ++ hexOfBytes (h bs))) := by
  fin_cases hp <;> exact ⟨_, rfl, by simp [hasherKeywordFunc, hreg]⟩

/-- Witness for C10: requesting `md5` on a regular file yields a token
labelled `md5digest`. -/
theorem digest_tokens_use_canonical_name_witness :
    ∃ h, resolveKeyword trivialExternals "md5" = some (hasherKeywordFunc "md5digest" h) ∧
      hasherKeywordFunc "md5digest" h "p" ⟨0o644, 0, 0, none⟩ (Except.ok [])
        = some (Except.ok ("md5digest" ++ "=" ++ hexOfBytes (h []))) :=
  digest_tokens_use_canonical_name trivialExternals ("md5", "md5digest") (by decide)
    "p" ⟨0o644, 0, 0, none⟩ [] (by decide)

end Mtree
